import Mathlib

/-!
Shallow embedding of `src/index.js` of the AI-Travel-Itinerary Cloudflare
Worker, together with proofs settling the frozen claims about it.

Modelling conventions:
* JavaScript values appearing in the worker are modelled by `JSVal`.
  JS numbers (excluding `NaN`/`±Infinity`, which never arise in the
  worker's own data) are modelled as rationals; `Number.isInteger v`
  corresponds to `q.den = 1`.
* `Date` objects are modelled by their ISO rendering (`JSVal.date iso`),
  supplied by a time oracle, since `new Date()` reads the real clock.
* External effects (crypto.randomUUID, crypto.subtle.sign, fetch to the
  token endpoint / Firestore / OpenAI, JSON.parse of the LLM output) are
  modelled as oracle inputs; the worker's own control flow and data
  construction are translated from the source.
-/

/-- A JavaScript value, as handled by the worker.  `undefined` is `undefined`;
`func`, `symbol` and `bigint` stand for values of type function, symbol
and bigint (unsupported by `toFirestoreFormat`). -/
inductive JSVal : Type where
  | undefined : JSVal
  | null : JSVal
  | str : String → JSVal
  | num : ℚ → JSVal
  | bool : Bool → JSVal
  | date : String → JSVal
  | arr : List JSVal → JSVal
  | obj : List (String × JSVal) → JSVal
  | func : JSVal
  | symbol : JSVal
  | bigint : Int → JSVal


/-- JavaScript truthiness of a value (`undefined`, `null`, `""`, `0`,
`NaN`, `false` and `0n` are falsy; every object is truthy). -/
def JSVal.truthy : JSVal → Bool
  | .undefined => false
  | .null => false
  | .str s => !s.isEmpty
  | .num q => q != 0
  | .bool b => b
  | .date _ => true
  | .arr _ => true
  | .obj _ => true
  | .func => true
  | .symbol => true
  | .bigint i => i != 0

/-- Property access `v.k` as it behaves on the values the worker reads
from parsed JSON: field lookup on objects, `undefined` otherwise.
(Access on `null`/`undefined` throws in JS; the call sites in the model
guard those cases explicitly where the source can reach them.) -/
def jsGet (v : JSVal) (k : String) : JSVal :=
  match v with
  | .obj fs => (fs.lookup k).getD .undefined
  | _ => .undefined

/-- `typeof v === 'number'`. -/
def JSVal.isNumber : JSVal → Bool
  | .num _ => true
  | _ => false

section Stringify

variable (numRepr : ℚ → String)

/-- One character of JSON string escaping, as `JSON.stringify` performs it:
`"` and `\` are escaped, the common control characters get their short
escapes, other control characters become `\u00xx`. -/
def jsonEscChar (c : Char) : List Char :=
  if c = '"' then ['\\', '"']
  else if c = '\\' then ['\\', '\\']
  else if c = '\n' then ['\\', 'n']
  else if c = '\r' then ['\\', 'r']
  else if c = '\t' then ['\\', 't']
  else if c.toNat = 8 then ['\\', 'b']
  else if c.toNat = 12 then ['\\', 'f']
  else if c.toNat < 32 then
    ['\\', 'u', '0', '0',
     "0123456789abcdef".toList.getD (c.toNat / 16) '0',
     "0123456789abcdef".toList.getD (c.toNat % 16) '0']
  else [c]

/-- JSON rendering of a string, with surrounding quotes. -/
def jsonQuote (s : String) : String :=
  "\"" ++ String.mk (s.toList.flatMap jsonEscChar) ++ "\""

mutual
/-- Model of `JSON.stringify` on one value.  `none` models the cases where
`JSON.stringify` produces no output for the value (`undefined`, functions,
symbols) or throws (bigint); such fields are omitted from objects and
rendered `null` inside arrays.  Non-integral numbers are rendered by the
host float printer `numRepr` (an oracle — the worker never compares such
renderings). -/
def stringifyVal : JSVal → Option String
  | .undefined => none
  | .null => some "null"
  | .str s => some (jsonQuote s)
  | .num q => some (if q.den = 1 then toString q.num else numRepr q)
  | .bool b => some (if b then "true" else "false")
  | .date iso => some (jsonQuote iso)
  | .arr vs => some ("[" ++ String.intercalate "," (stringifyArr vs) ++ "]")
  | .obj fs => some ("\x7b" ++ String.intercalate "," (stringifyObj fs) ++ "\x7d")
  | .func => none
  | .symbol => none
  | .bigint _ => none

/-- Array elements under `JSON.stringify`: droppable values render as
`null`. -/
def stringifyArr : List JSVal → List String
  | [] => []
  | v :: rest => (stringifyVal v).getD "null" :: stringifyArr rest

/-- Object entries under `JSON.stringify`: droppable values are omitted. -/
def stringifyObj : List (String × JSVal) → List String
  | [] => []
  | (k, v) :: rest =>
    match stringifyVal v with
    | some sv => (jsonQuote k ++ ":" ++ sv) :: stringifyObj rest
    | none => stringifyObj rest
end

/-- `JSON.stringify` where the argument is known to be an object (the only
way the worker uses it on open values). -/
def stringifyTop (v : JSVal) : String :=
  (stringifyVal numRepr v).getD "undefined"

/-- JS template-literal / `String(·)` coercion, for the cases the worker
can feed it (the `Bearer ${token}` header and error messages). -/
def jsTemplate : JSVal → String
  | .undefined => "undefined"
  | .null => "null"
  | .str s => s
  | .num q => if q.den = 1 then toString q.num else numRepr q
  | .bool b => if b then "true" else "false"
  | .date iso => iso
  | .arr _ => ""
  | .obj _ => "[object Object]"
  | .func => "function"
  | .symbol => "Symbol()"
  | .bigint i => toString i

end Stringify

/-! ## The Firestore document encoder (`toFirestoreFormat`, lines 131–161) -/

/-- A Firestore typed field value, as built by `toFirestoreFormat`.
Array elements are `Option FireVal` because the source maps each element
through `toFirestoreFormat({v}).v`: when the element is of an unsupported
type the inner call drops the `v` entry and the mapped element is the JS
value `undefined` (modelled `none`), which `JSON.stringify` later renders
as `null` inside the `values` array. -/
inductive FireVal : Type where
  | nullValue : FireVal
  | stringValue : String → FireVal
  | integerValue : String → FireVal
  | doubleValue : ℚ → FireVal
  | booleanValue : Bool → FireVal
  | timestampValue : String → FireVal
  | arrayValue : List (Option FireVal) → FireVal
  | mapValue : List (String × FireVal) → FireVal


mutual
/-- The per-value branch chain of `toFirestoreFormat`'s loop body
(lines 134–158).  `none` means the branch chain falls through and the
key is never set (unsupported type).  An array element is encoded as
`toFirestoreFormat({v}).v`, which equals this function on the element. -/
def encodeVal : JSVal → Option FireVal
  | .undefined => none
  | .null => some .nullValue
  | .str s => some (.stringValue s)
  | .num q =>
    some (if q.den = 1 ∧ -(2 ^ 53 : ℚ) ≤ q ∧ q ≤ 2 ^ 53
          then .integerValue (toString q.num)
          else .doubleValue q)
  | .bool b => some (.booleanValue b)
  | .date iso => some (.timestampValue iso)
  | .arr vs => some (.arrayValue (encodeList vs))
  | .obj fs => some (.mapValue (encodeFields fs))
  | .func => none
  | .symbol => none
  | .bigint _ => none

/-- `value.map(v => toFirestoreFormat({v}).v)` (line 151): length is
preserved; dropped elements become `undefined` slots. -/
def encodeList : List JSVal → List (Option FireVal)
  | [] => []
  | v :: rest => encodeVal v :: encodeList rest

/-- The `for (const [key, value] of Object.entries(obj))` loop of
`toFirestoreFormat`: keys whose value's branch chain falls through are
never added to `fields`. -/
def encodeFields : List (String × JSVal) → List (String × FireVal)
  | [] => []
  | (k, v) :: rest =>
    match encodeVal v with
    | some f => (k, f) :: encodeFields rest
    | none => encodeFields rest
end

/-! ## URL-safe base64 (`encodeBase64`, lines 61–66) -/

/-- The standard base64 alphabet, as `btoa` uses it. -/
def b64Table : List Char :=
  "ABCDEFGHIJKLMNOPQRSTUVWXYZabcdefghijklmnopqrstuvwxyz0123456789+/".toList

/-- The base64url alphabet (`-` and `_` in place of `+` and `/`). -/
def b64urlTable : List Char :=
  "ABCDEFGHIJKLMNOPQRSTUVWXYZabcdefghijklmnopqrstuvwxyz0123456789-_".toList

/-- Standard-alphabet digit for a 6-bit group. -/
def b64c (n : Nat) : Char := b64Table.getD (n % 64) 'A'

/-- Url-alphabet digit for a 6-bit group. -/
def b64u (n : Nat) : Char := b64urlTable.getD (n % 64) 'A'

/-- `btoa` on the byte values of a binary string: base64 with `=`
padding, three bytes per four output characters. -/
def btoaBytes : List Nat → List Char
  | [] => []
  | [b1] => [b64c (b1 / 4), b64c (b1 % 4 * 16), '=', '=']
  | [b1, b2] => [b64c (b1 / 4), b64c (b1 % 4 * 16 + b2 / 16), b64c (b2 % 16 * 4), '=']
  | b1 :: b2 :: b3 :: rest =>
    b64c (b1 / 4) :: b64c (b1 % 4 * 16 + b2 / 16) ::
    b64c (b2 % 16 * 4 + b3 / 64) :: b64c (b3 % 64) :: btoaBytes rest

/-- The two global regex replacements of `encodeBase64`
(`/\+/g → '-'`, `/\//g → '_'`), per character. -/
def urlReplace (c : Char) : Char :=
  if c = '+' then '-' else if c = '/' then '_' else c

/-- The `/=+$/ → ''` replacement: strip the trailing run of `=`. -/
def dropTrailingEq (l : List Char) : List Char :=
  (l.reverse.dropWhile (· = '=')).reverse

/-- `encodeBase64` (lines 61–66): `btoa`, then make the alphabet
URL-safe, then strip the padding. -/
def encodeBase64 (bs : List Nat) : String :=
  String.mk (dropTrailingEq ((btoaBytes bs).map urlReplace))

/-- Modelled from the spec's words ("base64url-encoded without padding"),
for comparison with the code's `encodeBase64`: emit base64url digits
directly and never produce padding. -/
def base64urlNoPad : List Nat → List Char
  | [] => []
  | [b1] => [b64u (b1 / 4), b64u (b1 % 4 * 16)]
  | [b1, b2] => [b64u (b1 / 4), b64u (b1 % 4 * 16 + b2 / 16), b64u (b2 % 16 * 4)]
  | b1 :: b2 :: b3 :: rest =>
    b64u (b1 / 4) :: b64u (b1 % 4 * 16 + b2 / 16) ::
    b64u (b2 % 16 * 4 + b3 / 64) :: b64u (b3 % 64) :: base64urlNoPad rest

lemma urlReplace_b64c_fin : ∀ k : Fin 64,
    urlReplace (b64Table.getD k.val 'A') = b64urlTable.getD k.val 'A' ∧
    urlReplace (b64Table.getD k.val 'A') ≠ '=' := by decide

lemma urlReplace_b64c (n : Nat) : urlReplace (b64c n) = b64u n := by
  have h : n % 64 < 64 := Nat.mod_lt _ (by norm_num)
  exact (urlReplace_b64c_fin ⟨n % 64, h⟩).1

lemma urlReplace_b64c_ne (n : Nat) : urlReplace (b64c n) ≠ '=' := by
  have h : n % 64 < 64 := Nat.mod_lt _ (by norm_num)
  exact (urlReplace_b64c_fin ⟨n % 64, h⟩).2

lemma dropWhile_eq_self_of_head {p : Char → Bool} :
    ∀ l : List Char, (∀ c ∈ l, ¬ p c) → l.dropWhile p = l
  | [], _ => rfl
  | a :: t, h => by
    have : ¬ p a := h a (List.mem_cons_self a t)
    simp [List.dropWhile_cons, this]

lemma dropTrailingEq_append (xs ys : List Char) (h : ∀ c ∈ xs, c ≠ '=') :
    dropTrailingEq (xs ++ ys) = xs ++ dropTrailingEq ys := by
  unfold dropTrailingEq
  rw [List.reverse_append, List.dropWhile_append]
  by_cases hy : (ys.reverse.dropWhile (· = '=')).isEmpty
  · simp only [hy, if_pos]
    rw [List.isEmpty_iff] at hy
    rw [hy, List.reverse_nil, List.append_nil]
    rw [dropWhile_eq_self_of_head xs.reverse
      (by intro c hc; simpa using h c (List.mem_reverse.mp hc))]
    simp
  · simp only [hy, if_neg]
    simp

lemma b64u_ne (n : Nat) : b64u n ≠ '=' :=
  urlReplace_b64c n ▸ urlReplace_b64c_ne n

lemma dropTrailingEq_pad2 (x y : Char) (hx : x ≠ '=') (hy : y ≠ '=') :
    dropTrailingEq [x, y, '=', '='] = [x, y] := by
  rw [show ([x, y, '=', '='] : List Char) = [x, y] ++ ['=', '='] from rfl]
  rw [dropTrailingEq_append [x, y] ['=', '='] (by
    intro c hc
    simp only [List.mem_cons, List.not_mem_nil, or_false] at hc
    rcases hc with rfl | rfl
    · exact hx
    · exact hy)]
  simp [dropTrailingEq]

lemma dropTrailingEq_pad1 (x y z : Char) (hx : x ≠ '=') (hy : y ≠ '=') (hz : z ≠ '=') :
    dropTrailingEq [x, y, z, '='] = [x, y, z] := by
  rw [show ([x, y, z, '='] : List Char) = [x, y, z] ++ ['='] from rfl]
  rw [dropTrailingEq_append [x, y, z] ['='] (by
    intro c hc
    simp only [List.mem_cons, List.not_mem_nil, or_false] at hc
    rcases hc with rfl | rfl | rfl
    · exact hx
    · exact hy
    · exact hz)]
  simp [dropTrailingEq]

/-- The code's `encodeBase64` agrees with the spec's direct description
of padless base64url. -/
theorem encodeBase64_eq_base64url : ∀ bs : List Nat,
    encodeBase64 bs = String.mk (base64urlNoPad bs)
  | [] => rfl
  | [b1] => by
    simp only [encodeBase64, btoaBytes, base64urlNoPad,
      List.map_cons, List.map_nil]
    rw [show urlReplace '=' = '=' from rfl, urlReplace_b64c, urlReplace_b64c]
    rw [dropTrailingEq_pad2 _ _ (b64u_ne _) (b64u_ne _)]
  | [b1, b2] => by
    simp only [encodeBase64, btoaBytes, base64urlNoPad,
      List.map_cons, List.map_nil]
    rw [show urlReplace '=' = '=' from rfl,
      urlReplace_b64c, urlReplace_b64c, urlReplace_b64c]
    rw [dropTrailingEq_pad1 _ _ _ (b64u_ne _) (b64u_ne _) (b64u_ne _)]
  | b1 :: b2 :: b3 :: rest => by
    have ih := congrArg String.toList (encodeBase64_eq_base64url rest)
    simp only [encodeBase64] at ih
    simp only [String.toList] at ih
    simp only [encodeBase64, btoaBytes, base64urlNoPad, List.map_cons]
    rw [urlReplace_b64c, urlReplace_b64c, urlReplace_b64c, urlReplace_b64c]
    rw [show (b64u (b1 / 4) :: b64u (b1 % 4 * 16 + b2 / 16) ::
           b64u (b2 % 16 * 4 + b3 / 64) :: b64u (b3 % 64) ::
           (btoaBytes rest).map urlReplace)
        = [b64u (b1 / 4), b64u (b1 % 4 * 16 + b2 / 16),
           b64u (b2 % 16 * 4 + b3 / 64), b64u (b3 % 64)] ++
          (btoaBytes rest).map urlReplace from rfl]
    rw [dropTrailingEq_append _ _ (by
      intro c hc
      simp only [List.mem_cons, List.not_mem_nil, or_false] at hc
      rcases hc with rfl | rfl | rfl | rfl
      all_goals exact b64u_ne _)]
    rw [show dropTrailingEq ((btoaBytes rest).map urlReplace)
        = base64urlNoPad rest from by simpa using ih]
    simp

/-! ## OAuth2 token acquisition (`getAccessToken`, lines 69–128) -/

/-- The token endpoint used both as the JWT `aud` claim (line 76) and as
the URL of the token POST (line 112). -/
def tokenEndpoint : String := "https://oauth2.googleapis.com/token"

/-- The byte values `btoa` reads from a string (`charCodeAt` per
position; the worker only feeds it ASCII JSON and Latin-1 signature
characters, where code unit and code point agree). -/
def strBytes (s : String) : List Nat := s.toList.map Char.toNat

/-- The JWT header object literal of line 72. -/
def jwtHeaderObj : JSVal := .obj [("alg", .str "RS256"), ("typ", .str "JWT")]

/-- The JWT claim-set object literal of lines 73–79. -/
def jwtClaimObj (email : String) (now : Nat) : JSVal :=
  .obj [("iss", .str email),
        ("scope", .str "https://www.googleapis.com/auth/cloud-platform"),
        ("aud", .str tokenEndpoint),
        ("exp", .num ((now : ℚ) + 3600)),
        ("iat", .num (now : ℚ))]

/-- The outcome of the token-endpoint `fetch` (lines 112–119), as an
oracle: the fetch may reject, or return a response whose `ok` flag and
(optionally parseable) JSON body are given. -/
inductive TokenResp : Type where
  | throwNet : String → TokenResp
  | resp : Bool → Option JSVal → TokenResp

/-- Everything external that one `getAccessToken` run consumes:
whether `atob` decodes the PEM body (lines 88–93) and the message of the
decode failure, `Date.now()/1000` (line 70), the RSA signature bytes
produced by `crypto.subtle.sign` (lines 103–107; the import and sign
calls are modelled as total — a rejection there would only abort the
call before the fetch, which no claim depends on), the token-endpoint
response, and the message of the `tokenRes.json()` parse error
(line 126) when the successful response's body is malformed. -/
structure TokenOracle : Type where
  keyDecodeOk : Bool
  keyErrMsg : String
  now : Nat
  sign : String → List Nat
  resp : TokenResp
  parseErrMsg : String

/-- The POST issued to the token endpoint (lines 112–119). -/
structure TokenRequest : Type where
  url : String
  grantType : String
  assertion : String

/-- `` `${header}.${payload}` `` (lines 72–81). -/
def mkToSign (numRepr : ℚ → String) (email : String) (now : Nat) : String :=
  encodeBase64 (strBytes (stringifyTop numRepr jwtHeaderObj)) ++ "." ++
  encodeBase64 (strBytes (stringifyTop numRepr (jwtClaimObj email now)))

/-- `` `${toSign}.${sig}` `` (lines 109–110). -/
def mkAssertion (numRepr : ℚ → String) (email : String) (o : TokenOracle) : String :=
  mkToSign numRepr email o.now ++ "." ++
  encodeBase64 (o.sign (mkToSign numRepr email o.now))

/-- Result of `getAccessToken`: the value returned (line 127, a raw
property read, so possibly `undefined`) or the thrown error's message. -/
inductive TokenOutcome : Type where
  | ok : JSVal → TokenOutcome
  | err : String → TokenOutcome

/-- `getAccessToken` (lines 69–128): returns the token request it issued
(`none` when the key decode failed before the fetch) and the outcome.
A non-ok response throws `Failed to get access token: <JSON of the
best-effort-parsed body, {} on parse failure>` (lines 121–124); an ok
response is parsed with no catch (line 126), so a malformed body
propagates the raw parse error. -/
def getAccessToken (numRepr : ℚ → String) (email : String) (o : TokenOracle) :
    Option TokenRequest × TokenOutcome :=
  if o.keyDecodeOk then
    let req : TokenRequest :=
      ⟨tokenEndpoint, "urn:ietf:params:oauth:grant-type:jwt-bearer",
       mkAssertion numRepr email o⟩
    match o.resp with
    | .throwNet m => (some req, .err m)
    | .resp ok body =>
      if ok then
        match body with
        | some b => (some req, .ok (jsGet b "access_token"))
        | none => (some req, .err o.parseErrMsg)
      else
        (some req, .err ("Failed to get access token: " ++
          stringifyTop numRepr (body.getD (.obj []))))
  else
    (none, .err ("Failed to decode private key: " ++ o.keyErrMsg))

/-! ## Firestore writes (`saveToFirestore`, lines 164–186) -/

/-- The outcome of the Firestore `fetch` (lines 167–174), as an oracle:
network rejection, or a response with `ok`, `status` and an (optionally
parseable) JSON body. -/
inductive FsResp : Type where
  | throwNet : String → FsResp
  | resp : Bool → Nat → Option JSVal → FsResp

/-- External inputs of one `saveToFirestore` call: the token-acquisition
oracle and the Firestore response. -/
structure SaveOracle : Type where
  tok : TokenOracle
  fs : FsResp

/-- The PATCH issued against the document URL (lines 167–174).  `fields`
is the structured payload of `JSON.stringify({fields: toFirestoreFormat
(data)})`. -/
structure FirestoreRequest : Type where
  url : String
  method : String
  authHeader : String
  fields : List (String × FireVal)

/-- What one `saveToFirestore` call did: the token request it sent (if
any), the Firestore request it issued (`none` when token acquisition
threw first), and whether it returned normally or rethrew an error. -/
structure SaveOutcome : Type where
  tokenReq : Option TokenRequest
  fsReq : Option FirestoreRequest
  result : Except String Unit

/-- `saveToFirestore` (lines 164–186): acquire a token, PATCH the
document with header `Bearer <token>`; a non-ok response throws
`Firestore error <status>: <best-effort body JSON>`; every error is
logged and rethrown. -/
def runSave (numRepr : ℚ → String) (email : String) (docUrl : String)
    (o : SaveOracle) (data : List (String × JSVal)) : SaveOutcome :=
  match getAccessToken numRepr email o.tok with
  | (treq, .err m) => ⟨treq, none, .error m⟩
  | (treq, .ok token) =>
    let req : FirestoreRequest :=
      ⟨docUrl, "PATCH", "Bearer " ++ jsTemplate numRepr token, encodeFields data⟩
    match o.fs with
    | .throwNet m => ⟨treq, some req, .error m⟩
    | .resp ok status body =>
      if ok then ⟨treq, some req, .ok ()⟩
      else ⟨treq, some req, .error ("Firestore error " ++ toString status ++
        ": " ++ stringifyTop numRepr (body.getD (.obj [])))⟩

/-! ## The worker run (`fetch` handler, lines 1–298) -/

/-- Line 37's validation condition, negated: the request passes when
`destination` and `durationDays` are truthy, `durationDays` is a number
and is not `≤ 0`. -/
def validInput (dest dur : JSVal) : Bool :=
  dest.truthy && dur.truthy && dur.isNumber &&
    !(match dur with | .num q => decide (q ≤ 0) | _ => false)

/-- The environment bindings the worker reads (lines 49–53, 224).
A missing secret is `none`; Cloudflare secrets are strings. -/
structure WorkerEnv : Type where
  gcpClientEmail : Option String
  gcpPrivateKeyId : Option String
  gcpPrivateKey : Option String
  openaiApiKey : Option String

/-- Truthiness of an optional environment string. -/
def envTruthy : Option String → Bool
  | none => false
  | some s => !s.isEmpty

/-- The credential presence check of line 55. -/
def credsOk (env : WorkerEnv) : Bool :=
  envTruthy env.gcpClientEmail && envTruthy env.gcpPrivateKeyId &&
    envTruthy env.gcpPrivateKey

/-- The document URL of line 46 for a given job id. -/
def docUrlOf (jobId : String) : String :=
  "https://firestore.googleapis.com/v1/projects/travel-468612/databases/(default)/documents/itineraries/" ++ jobId

/-- The `processing` document written synchronously (lines 190–198). -/
def initData (dest dur : JSVal) (createdAt : String) : List (String × JSVal) :=
  [("status", .str "processing"),
   ("destination", dest),
   ("durationDays", dur),
   ("createdAt", .date createdAt),
   ("completedAt", .null),
   ("itinerary", .arr []),
   ("error", .null)]

/-- The `completed` document written on generation success
(lines 275–280). -/
def completedData (itinerary : List JSVal) (completedAt : String) :
    List (String × JSVal) :=
  [("status", .str "completed"),
   ("itinerary", .arr itinerary),
   ("completedAt", .date completedAt),
   ("error", .null)]

/-- `err.message?.substring(0, 255) || 'Unknown error'` (line 289):
the message truncated to 255 characters, with the falsy empty string
replaced by the fallback text. -/
def truncMsg (m : String) : String :=
  if String.mk (m.toList.take 255) = "" then "Unknown error"
  else String.mk (m.toList.take 255)

/-- The `failed` document written by the detached catch (lines 286–290). -/
def failedData (msg : String) (failedAt : String) : List (String × JSVal) :=
  [("status", .str "failed"),
   ("completedAt", .date failedAt),
   ("error", .str (truncMsg msg))]

/-! ## The detached generation step (lines 216–295) -/

/-- The outcome of the OpenAI `fetch` (lines 229–247), as an oracle:
network rejection, or a response with its `ok` flag and the result of
`openAIResp.json()` (`Except.error` = the body was not JSON and the
parse rejection propagates, line 249). -/
inductive OpenAIResp : Type where
  | throwNet : String → OpenAIResp
  | resp : Bool → Except String JSVal → OpenAIResp

/-- External inputs of the generation pipeline: the OpenAI response and
`JSON.parse` on the model's text output (line 265). -/
structure GenOracle : Type where
  openai : OpenAIResp
  parse : String → Except String JSVal

/-- Property access `v.k` where the source does NOT guard `v` with `?.`,
so reading from `null`/`undefined` throws a TypeError. -/
def jsGetStrict (v : JSVal) (k : String) : Except String JSVal :=
  match v with
  | .undefined => .error ("Cannot read properties of undefined (reading '" ++ k ++ "')")
  | .null => .error ("Cannot read properties of null (reading '" ++ k ++ "')")
  | .obj fs => .ok ((fs.lookup k).getD .undefined)
  | _ => .ok .undefined

/-- `choices[0]` (line 256): indexing `undefined`/`null` throws; arrays
yield element 0 (or `undefined`); other values yield `undefined` (a
string would yield its first character, which the surrounding optional
chain treats the same way: no `content` property). -/
def jsIndex0 : JSVal → Except String JSVal
  | .undefined => .error "Cannot read properties of undefined (reading '0')"
  | .null => .error "Cannot read properties of null (reading '0')"
  | .arr vs => .ok (vs.getD 0 .undefined)
  | .obj fs => .ok ((fs.lookup "0").getD .undefined)
  | _ => .ok .undefined

/-- `String.prototype.trim`: strip leading and trailing whitespace. -/
def jsTrim (s : String) : String :=
  String.mk
    (((s.toList.dropWhile Char.isWhitespace).reverse.dropWhile
      Char.isWhitespace).reverse)

/-- `openAIResult.choices[0]?.message?.content?.trim()` (line 256):
`none` means the optional chain produced `undefined`. -/
def extractRawText (body : JSVal) : Except String (Option String) := do
  let choices ← jsGetStrict body "choices"
  let c0 ← jsIndex0 choices
  match jsGet (jsGet c0 "message") "content" with
  | .undefined => .ok none
  | .null => .ok none
  | .str s => .ok (some (jsTrim s))
  | _ => .error "openAIResult.choices[0]?.message?.content?.trim is not a function"

/-- Everything the detached phase does before the terminal writes
(lines 224–272): check the API key, call OpenAI, parse its body, check
`ok`, extract and trim the message text, `JSON.parse` it, and require an
`itinerary` array.  `Except.error m` is the message of the error thrown
from any of these steps (caught at line 283); the OpenAI request payload
itself (model, prompt, line 235–246) is not modelled, as nothing the
worker later does depends on it. -/
def genStep (numRepr : ℚ → String) (apiKey : Option String)
    (g : GenOracle) : Except String (List JSVal) := do
  if !(envTruthy apiKey) then
    .error "Missing OPENAI_API_KEY"
  else
    match g.openai with
    | .throwNet m => .error m
    | .resp ok bodyParse =>
      match bodyParse with
      | .error m => .error m
      | .ok body =>
        if !ok then
          match jsGetStrict body "error" with
          | .error m => .error m
          | .ok errv =>
            let m := jsGet errv "message"
            .error (if m.truthy then jsTemplate numRepr m
              else "OpenAI API error: " ++ jsTemplate numRepr (jsGet errv "type"))
        else
          match extractRawText body with
          | .error m => .error m
          | .ok rawOpt =>
            let raw := rawOpt.getD ""
            if raw = "" then .error "No response content from OpenAI"
            else
              match g.parse raw with
              | .error pm => .error ("Failed to parse LLM output as JSON: " ++ pm ++
                  ". Raw: " ++ String.mk (raw.toList.take 500) ++ "...")
              | .ok parsed =>
                match jsGetStrict parsed "itinerary" with
                | .error m => .error m
                | .ok itv =>
                  match itv with
                  | .arr it => .ok it
                  | _ => .error "Invalid itinerary format: expected array under \"itinerary\""

/-- One write of the run: the JS object passed to `saveToFirestore` and
what the call did. -/
abbrev WriteEvent := List (String × JSVal) × SaveOutcome

/-- All external inputs of one worker run, in the order the source
consumes them: `crypto.randomUUID()` (line 41), the `new Date()` values,
the three possible `saveToFirestore` calls' oracles (initial, first
detached write, second detached write), and the generation oracle. -/
structure WorkerOracle : Type where
  uuid : String
  createdAt : String
  save0 : SaveOracle
  gen : GenOracle
  completedAt : String
  failedAt : String
  save1 : SaveOracle
  save2 : SaveOracle

/-- The detached phase (the `ctx.waitUntil` closure, lines 216–295):
run the generation step; on success write the `completed` document, and
if that write throws, write the `failed` document; on failure write the
`failed` document.  A failure of the `failed` write itself is only
logged (lines 291–293). -/
def detachedPhase (numRepr : ℚ → String) (env : WorkerEnv)
    (docUrl : String) (o : WorkerOracle) : List WriteEvent :=
  let email := env.gcpClientEmail.getD ""
  match genStep numRepr env.openaiApiKey o.gen with
  | .ok it =>
    let cdata := completedData it o.completedAt
    let ev1 := runSave numRepr email docUrl o.save1 cdata
    match ev1.result with
    | .ok _ => [(cdata, ev1)]
    | .error m =>
      let fdata := failedData m o.failedAt
      [(cdata, ev1), (fdata, runSave numRepr email docUrl o.save2 fdata)]
  | .error m =>
    let fdata := failedData m o.failedAt
    [(fdata, runSave numRepr email docUrl o.save1 fdata)]

/-- The worker's HTTP answer for a POSTed JSON request. -/
inductive SyncResult : Type where
  | accepted : String → SyncResult
  | clientError : String → SyncResult
  | serverError : String → SyncResult

/-- A whole run: the synchronous answer, whether `ctx.waitUntil` was
invoked, and every `saveToFirestore` call in order. -/
structure RunResult : Type where
  response : SyncResult
  scheduled : Bool
  writes : List WriteEvent

/-- The synchronous phase (lines 36–213): validate, check credentials,
write the `processing` document; only if that write returns normally is
the 202 `{jobId}` answer produced. -/
def syncPhase (numRepr : ℚ → String) (env : WorkerEnv) (dest dur : JSVal)
    (o : WorkerOracle) : RunResult :=
  if !(validInput dest dur) then
    ⟨.clientError "Invalid input: destination and positive durationDays required",
     false, []⟩
  else if !(credsOk env) then
    ⟨.serverError "Internal Server Error", false, []⟩
  else
    let d0 := initData dest dur o.createdAt
    let ev0 := runSave numRepr (env.gcpClientEmail.getD "") (docUrlOf o.uuid)
      o.save0 d0
    match ev0.result with
    | .error _ => ⟨.serverError "Failed to initialize job", false, [(d0, ev0)]⟩
    | .ok _ => ⟨.accepted o.uuid, true, [(d0, ev0)]⟩

/-- A full run: the synchronous phase, then — exactly when the response
was the 202 acknowledgment — the detached phase scheduled through
`ctx.waitUntil` (line 216). -/
def runWorker (numRepr : ℚ → String) (env : WorkerEnv) (dest dur : JSVal)
    (o : WorkerOracle) : RunResult :=
  let s := syncPhase numRepr env dest dur o
  if s.scheduled then
    { s with writes := s.writes ++ detachedPhase numRepr env (docUrlOf o.uuid) o }
  else s

/-- Whether a write's payload carries a terminal status. -/
def isTerminalData (d : List (String × JSVal)) : Bool :=
  match d.lookup "status" with
  | some (.str s) => s == "completed" || s == "failed"
  | _ => false

/-! ## Claims about the document encoder -/

/-- A JS value of a type `toFirestoreFormat`'s branch chain does not
handle. -/
def unsupportedJS : JSVal → Bool
  | .undefined => true
  | .func => true
  | .symbol => true
  | .bigint _ => true
  | _ => false

/-- C6: for every numeric value in the input record, the encoder
produces an integer-typed field whose value is the number rendered as a
decimal string when the number is integral (denominator 1) and its
integer value lies within ±2^53, and a floating-point-typed field
otherwise. -/
theorem C6_number_encoding (k : String) (q : ℚ) (rest : List (String × JSVal)) :
    encodeFields ((k, .num q) :: rest) =
      (k, if q.den = 1 ∧ -(2 ^ 53 : Int) ≤ q.num ∧ q.num ≤ 2 ^ 53
          then FireVal.integerValue (toString q.num)
          else FireVal.doubleValue q) :: encodeFields rest := by
  have hiff : (q.den = 1 ∧ -(2 ^ 53 : ℚ) ≤ q ∧ q ≤ 2 ^ 53) ↔
      (q.den = 1 ∧ -(2 ^ 53 : Int) ≤ q.num ∧ q.num ≤ 2 ^ 53) := by
    constructor
    · rintro ⟨h1, h2, h3⟩
      have hq : (q.num : ℚ) = q := Rat.coe_int_num_of_den_eq_one h1
      refine ⟨h1, ?_, ?_⟩
      · rw [← hq] at h2
        exact_mod_cast h2
      · rw [← hq] at h3
        exact_mod_cast h3
    · rintro ⟨h1, h2, h3⟩
      have hq : (q.num : ℚ) = q := Rat.coe_int_num_of_den_eq_one h1
      refine ⟨h1, ?_, ?_⟩
      · rw [← hq]
        exact_mod_cast h2
      · rw [← hq]
        exact_mod_cast h3
  simp only [encodeFields, encodeVal]
  rw [if_congr hiff rfl rfl]

/-- C7 counterexample: for the record `{a: [undefined]}` the encoder
does not drop the unsupported array element — the array field keeps a
slot for it (the JS value `undefined`, serialized as `null`), so the
result is neither an empty array field nor an absent field. -/
theorem C7_array_slot_counterexample :
    encodeFields [("a", JSVal.arr [JSVal.undefined])] =
      [("a", FireVal.arrayValue [none])] ∧
    [("a", FireVal.arrayValue [(none : Option FireVal)])] ≠
      [("a", FireVal.arrayValue [])] ∧
    [("a", FireVal.arrayValue [(none : Option FireVal)])] ≠ [] := by
  refine ⟨rfl, ?_, ?_⟩ <;> simp

/-- C7 (amended): the encoder never errors, and an entry holding a value
of an unsupported type (undefined, function, symbol, bigint) is silently
dropped at the top level and inside nested mappings; inside an array,
however, the element is not dropped — it remains as an `undefined` slot
(serialized as `null`), preserving the array's length. -/
theorem C7_unsupported_dropped (k ka km : String) (v : JSVal)
    (rest : List (String × JSVal)) (h : unsupportedJS v = true) :
    encodeVal v = none ∧
    encodeFields ((k, v) :: rest) = encodeFields rest ∧
    encodeFields [(km, .obj [(k, v)])] = [(km, .mapValue [])] ∧
    encodeFields [(ka, .arr [v])] = [(ka, .arrayValue [none])] := by
  have hv : encodeVal v = none := by
    cases v <;> simp_all [unsupportedJS, encodeVal]
  refine ⟨hv, ?_, ?_, ?_⟩ <;>
    simp [encodeFields, encodeList, encodeVal, hv]

/-- C7 witness: the amended statement holds at the concrete record keys
`"a"`, `"b"`, `"c"` with the unsupported value `undefined`. -/
theorem C7_unsupported_dropped_witness :
    unsupportedJS .undefined = true ∧
    (encodeVal .undefined = none ∧
     encodeFields [("c", .undefined)] = encodeFields [] ∧
     encodeFields [("b", .obj [("c", .undefined)])] = [("b", .mapValue [])] ∧
     encodeFields [("a", .arr [.undefined])] = [("a", .arrayValue [none])]) :=
  ⟨rfl, C7_unsupported_dropped "c" "a" "b" .undefined [] rfl⟩

/-! ## Claims about token acquisition -/

/-- C8: whenever the private key decodes (so the token fetch is
reached), the POSTed JWT assertion is `header.payload.signature`: the
base64url-no-padding encoding of the JSON serialization of
`{alg: RS256, typ: JWT}`, then of the claim set (issuer = credential
email, cloud-platform scope, audience = the token-endpoint URL the
request goes to, expiry `now+3600`, issued-at `now`), then of the
RSA signature taken over `header.payload`, all joined with `.`. -/
theorem C8_jwt_assertion_format (numRepr : ℚ → String) (email : String)
    (o : TokenOracle) (h : o.keyDecodeOk = true) :
    ∃ req : TokenRequest, (getAccessToken numRepr email o).1 = some req ∧
      req.url = tokenEndpoint ∧
      req.grantType = "urn:ietf:params:oauth:grant-type:jwt-bearer" ∧
      req.assertion =
        String.mk (base64urlNoPad (strBytes (stringifyTop numRepr jwtHeaderObj)))
          ++ "." ++
        String.mk (base64urlNoPad (strBytes
          (stringifyTop numRepr (jwtClaimObj email o.now)))) ++ "." ++
        String.mk (base64urlNoPad (o.sign (mkToSign numRepr email o.now))) ∧
      mkToSign numRepr email o.now =
        String.mk (base64urlNoPad (strBytes (stringifyTop numRepr jwtHeaderObj)))
          ++ "." ++
        String.mk (base64urlNoPad (strBytes
          (stringifyTop numRepr (jwtClaimObj email o.now)))) ∧
      stringifyTop numRepr jwtHeaderObj = "\x7b\"alg\":\"RS256\",\"typ\":\"JWT\"\x7d" ∧
      jsGet (jwtClaimObj email o.now) "iss" = .str email ∧
      jsGet (jwtClaimObj email o.now) "aud" = .str req.url ∧
      jsGet (jwtClaimObj email o.now) "exp" = .num ((o.now : ℚ) + 3600) ∧
      jsGet (jwtClaimObj email o.now) "iat" = .num (o.now : ℚ) := by
  obtain ⟨kd, kem, now, sgn, resp, pem⟩ := o
  simp only at h
  subst h
  have hsign : (⟨true, kem, now, sgn, resp, pem⟩ : TokenOracle).sign = sgn := rfl
  refine ⟨⟨tokenEndpoint, "urn:ietf:params:oauth:grant-type:jwt-bearer",
    mkAssertion numRepr email ⟨true, kem, now, sgn, resp, pem⟩⟩, ?_, rfl, rfl,
    ?_, ?_, ?_, rfl, rfl, rfl, rfl⟩
  · show (getAccessToken numRepr email ⟨true, kem, now, sgn, resp, pem⟩).1 = _
    cases resp with
    | throwNet m => rfl
    | resp ok body =>
      cases ok <;> cases body <;> rfl
  · show mkAssertion numRepr email ⟨true, kem, now, sgn, resp, pem⟩ = _
    rw [mkAssertion, mkToSign]
    rw [encodeBase64_eq_base64url, encodeBase64_eq_base64url,
      encodeBase64_eq_base64url]
  · rw [mkToSign, encodeBase64_eq_base64url, encodeBase64_eq_base64url]
  · rfl

/-- C8 witness: a concrete token acquisition with a decodable key
reaches the token fetch and its assertion has the stated shape. -/
theorem C8_jwt_assertion_format_witness :
    (⟨true, "", 7, fun _ => [1, 2, 3], .throwNet "down", ""⟩ : TokenOracle).keyDecodeOk
      = true ∧
    (∃ req : TokenRequest,
      (getAccessToken (fun _ => "") "svc@example.com"
        ⟨true, "", 7, fun _ => [1, 2, 3], .throwNet "down", ""⟩).1 = some req ∧
      req.url = tokenEndpoint ∧
      req.grantType = "urn:ietf:params:oauth:grant-type:jwt-bearer" ∧
      req.assertion =
        String.mk (base64urlNoPad (strBytes
          (stringifyTop (fun _ => "") jwtHeaderObj))) ++ "." ++
        String.mk (base64urlNoPad (strBytes
          (stringifyTop (fun _ => "") (jwtClaimObj "svc@example.com" 7)))) ++ "." ++
        String.mk (base64urlNoPad ((fun _ => [1, 2, 3])
          (mkToSign (fun _ => "") "svc@example.com" 7))) ∧
      mkToSign (fun _ => "") "svc@example.com" 7 =
        String.mk (base64urlNoPad (strBytes
          (stringifyTop (fun _ => "") jwtHeaderObj))) ++ "." ++
        String.mk (base64urlNoPad (strBytes
          (stringifyTop (fun _ => "") (jwtClaimObj "svc@example.com" 7)))) ∧
      stringifyTop (fun _ => "") jwtHeaderObj = "\x7b\"alg\":\"RS256\",\"typ\":\"JWT\"\x7d" ∧
      jsGet (jwtClaimObj "svc@example.com" 7) "iss" = .str "svc@example.com" ∧
      jsGet (jwtClaimObj "svc@example.com" 7) "aud" = .str req.url ∧
      jsGet (jwtClaimObj "svc@example.com" 7) "exp" = .num ((7 : ℚ) + 3600) ∧
      jsGet (jwtClaimObj "svc@example.com" 7) "iat" = .num (7 : ℚ)) :=
  ⟨rfl, C8_jwt_assertion_format (fun _ => "") "svc@example.com" _ rfl⟩

/-- A concrete token-endpoint response: 2xx status, body not parseable
as JSON (so `tokenRes.json()` at line 126 rejects with the parser's own
message). -/
def malformedOkTokenOracle : TokenOracle :=
  ⟨true, "", 0, fun _ => [], .resp true none, "Unexpected end of JSON input"⟩

/-- C9 counterexample: on a 2xx token-endpoint response whose body is
not JSON, `getAccessToken` fails with the raw parse error, not with the
`Failed to get access token: …` error the code uses for the exchange
failure (which with an empty detail would read
`Failed to get access token: {}`). -/
theorem C9_malformed_ok_counterexample :
    (getAccessToken (fun _ => "") "svc@example.com" malformedOkTokenOracle).2 =
      .err "Unexpected end of JSON input" ∧
    "Unexpected end of JSON input" ≠ "Failed to get access token: \x7b\x7d" := by
  exact ⟨rfl, by decide⟩

/-- C9 (amended): with a decodable key, a non-2xx token-endpoint
response makes `getAccessToken` fail with the `Failed to get access
token:` error carrying the best-effort-parsed response body, and a body
parse failure there yields the empty detail `{}` rather than a crash;
a 2xx response whose body cannot be parsed as JSON, however, fails by
propagating the parse error itself, with no exchange-error wrapping. -/
theorem C9_token_exchange_failure (numRepr : ℚ → String) (email : String)
    (o : TokenOracle) (h : o.keyDecodeOk = true) :
    (∀ body : Option JSVal, o.resp = .resp false body →
      (getAccessToken numRepr email o).2 =
        .err ("Failed to get access token: " ++
          stringifyTop numRepr (body.getD (.obj [])))) ∧
    (o.resp = .resp false none →
      (getAccessToken numRepr email o).2 =
        .err "Failed to get access token: \x7b\x7d") ∧
    (o.resp = .resp true none →
      (getAccessToken numRepr email o).2 = .err o.parseErrMsg) := by
  obtain ⟨kd, kem, now, sgn, resp, pem⟩ := o
  simp only at h
  subst h
  refine ⟨?_, ?_, ?_⟩
  · rintro body hb
    simp only at hb
    subst hb
    rfl
  · intro hb
    simp only at hb
    subst hb
    rfl
  · intro hb
    simp only at hb
    subst hb
    rfl

/-- C9 witness: at a concrete non-2xx response with an unparseable body,
the failure carries the empty `{}` detail. -/
theorem C9_token_exchange_failure_witness :
    (⟨true, "", 0, fun _ => [], .resp false none, ""⟩ : TokenOracle).keyDecodeOk
      = true ∧
    ((∀ body : Option JSVal,
      (⟨true, "", 0, fun _ => [], .resp false none, ""⟩ : TokenOracle).resp
        = .resp false body →
      (getAccessToken (fun _ => "") "svc@example.com"
        ⟨true, "", 0, fun _ => [], .resp false none, ""⟩).2 =
        .err ("Failed to get access token: " ++
          stringifyTop (fun _ => "") (body.getD (.obj [])))) ∧
    ((⟨true, "", 0, fun _ => [], .resp false none, ""⟩ : TokenOracle).resp
        = .resp false none →
      (getAccessToken (fun _ => "") "svc@example.com"
        ⟨true, "", 0, fun _ => [], .resp false none, ""⟩).2 =
        .err "Failed to get access token: \x7b\x7d") ∧
    ((⟨true, "", 0, fun _ => [], .resp false none, ""⟩ : TokenOracle).resp
        = .resp true none →
      (getAccessToken (fun _ => "") "svc@example.com"
        ⟨true, "", 0, fun _ => [], .resp false none, ""⟩).2 =
        .err (⟨true, "", 0, fun _ => [], .resp false none,
          ""⟩ : TokenOracle).parseErrMsg)) :=
  ⟨rfl, C9_token_exchange_failure (fun _ => "") "svc@example.com" _ rfl⟩

/-- A 2xx token-endpoint response whose JSON body has no `access_token`
field, and a Firestore write that succeeds. -/
def missingTokenSaveOracle : SaveOracle :=
  ⟨⟨true, "", 0, fun _ => [], .resp true
      (some (.obj [("token_type", .str "Bearer")])), ""⟩,
   .resp true 200 none⟩

/-- C10: on a 2xx token-endpoint response whose body is valid JSON but
lacks `access_token`, `getAccessToken` returns `undefined` without any
error, and the subsequent Firestore write goes out with the literal
header value `Bearer undefined`. -/
theorem C10_bearer_undefined :
    (getAccessToken (fun _ => "") "svc@example.com"
        missingTokenSaveOracle.tok).2 = .ok .undefined ∧
    ((runSave (fun _ => "") "svc@example.com" (docUrlOf "job-1")
        missingTokenSaveOracle
        [("status", .str "processing")]).fsReq.map
      FirestoreRequest.authHeader) = some "Bearer undefined" ∧
    (runSave (fun _ => "") "svc@example.com" (docUrlOf "job-1")
        missingTokenSaveOracle
        [("status", .str "processing")]).result = .ok () := by
  refine ⟨rfl, rfl, rfl⟩

/-! ## Claims about the job lifecycle -/

/-- A `saveToFirestore` call that returned normally issued its PATCH
against the given document URL with the encoded payload. -/
lemma runSave_ok_request (numRepr : ℚ → String) (email docUrl : String)
    (o : SaveOracle) (data : List (String × JSVal))
    (h : (runSave numRepr email docUrl o data).result = .ok ()) :
    ∃ req : FirestoreRequest,
      (runSave numRepr email docUrl o data).fsReq = some req ∧
      req.url = docUrl ∧ req.method = "PATCH" ∧
      req.fields = encodeFields data := by
  unfold runSave at h ⊢
  revert h
  rcases getAccessToken numRepr email o.tok with ⟨treq, out⟩
  cases out with
  | err m =>
    intro h
    simp at h
  | ok token =>
    rcases o.fs with m | ⟨ok, status, body⟩
    · intro h
      simp at h
    · cases ok with
      | false =>
        intro h
        simp at h
      | true =>
        intro _
        exact ⟨_, rfl, rfl, rfl, rfl⟩

/-- The worker's validation accepts any truthy destination together
with any positive numeric durationDays. -/
lemma validInput_pos (s : String) (q : ℚ) (hs : s ≠ "") (hq0 : 0 < q) :
    validInput (.str s) (.num q) = true := by
  have h1 : ¬ (q ≤ 0) := not_le.mpr hq0
  have h2 : q ≠ 0 := ne_of_gt hq0
  have h3 : s.isEmpty = false := by
    by_contra hne
    rw [Bool.not_eq_false] at hne
    exact hs ((String.isEmpty_iff s).mp hne)
  simp [validInput, JSVal.truthy, JSVal.isNumber, h1, h2, h3]

/-- C1: for every valid input (non-empty destination string, positive
numeric durationDays) and every run whose synchronous phase answers
with a job id, that id is the freshly drawn UUID (not previously
issued, under the collision-freeness of `crypto.randomUUID` expressed
by `hfresh`), and before the answer the one synchronous write succeeded
and PATCHed the job's own document URL with exactly
`status=processing, destination, durationDays, createdAt, completedAt=
null, itinerary=[], error=null`. -/
theorem C1_start_persists_processing (numRepr : ℚ → String)
    (env : WorkerEnv) (s : String) (q : ℚ) (o : WorkerOracle)
    (issued : List String) (jid : String)
    (hs : s ≠ "") (hq0 : 0 < q)
    (hfresh : o.uuid ∉ issued)
    (hacc : (syncPhase numRepr env (.str s) (.num q) o).response
      = .accepted jid) :
    jid = o.uuid ∧ jid ∉ issued ∧
    ∃ ev : SaveOutcome,
      (syncPhase numRepr env (.str s) (.num q) o).writes =
        [(initData (.str s) (.num q) o.createdAt, ev)] ∧
      ev.result = .ok () ∧
      ∃ req : FirestoreRequest, ev.fsReq = some req ∧
        req.url = docUrlOf o.uuid ∧ req.method = "PATCH" ∧
        req.fields = encodeFields (initData (.str s) (.num q) o.createdAt) := by
  have hval := validInput_pos s q hs hq0
  rw [syncPhase, hval] at hacc
  simp only [Bool.not_true, Bool.false_eq_true, if_false] at hacc
  by_cases hc : credsOk env
  · rw [if_neg (by simp [hc])] at hacc
    cases hr : (runSave numRepr (env.gcpClientEmail.getD "")
        (docUrlOf o.uuid) o.save0 (initData (.str s) (.num q) o.createdAt)).result
      with
    | error m =>
      rw [hr] at hacc
      simp at hacc
    | ok u =>
      rw [hr] at hacc
      simp only [SyncResult.accepted.injEq] at hacc
      subst hacc
      refine ⟨rfl, hfresh, ?_⟩
      refine ⟨runSave numRepr (env.gcpClientEmail.getD "") (docUrlOf o.uuid)
        o.save0 (initData (.str s) (.num q) o.createdAt), ?_, ?_, ?_⟩
      · rw [syncPhase, hval]
        simp only [Bool.not_true, Bool.false_eq_true, if_false]
        rw [if_neg (by simp [hc]), hr]
      · cases u
        exact hr
      · cases u
        exact runSave_ok_request _ _ _ _ _ hr
  · rw [if_pos (by simp [hc])] at hacc
    simp at hacc

/-- A token-endpoint oracle whose exchange succeeds with a token. -/
def okTokenOracle : TokenOracle :=
  ⟨true, "", 0, fun _ => [],
   .resp true (some (.obj [("access_token", .str "tok")])), ""⟩

/-- A `saveToFirestore` oracle where both the token exchange and the
PATCH succeed. -/
def okSaveOracle : SaveOracle := ⟨okTokenOracle, .resp true 200 none⟩

/-- A `saveToFirestore` oracle whose private-key decode fails, so the
write throws before any fetch. -/
def failSaveOracle : SaveOracle :=
  ⟨⟨false, "bad key", 0, fun _ => [], .throwNet "", ""⟩, .throwNet ""⟩

/-- An environment with all four secrets present. -/
def okEnv : WorkerEnv :=
  ⟨some "svc@example.com", some "kid", some "pem", some "sk-test"⟩

/-- A generation oracle where OpenAI answers with a well-shaped body and
the model text parses to `{"itinerary": []}`. -/
def okGenOracle : GenOracle :=
  ⟨.resp true (.ok (.obj [("choices", .arr [.obj [("message",
      .obj [("content", .str "\x7b\"itinerary\":[]\x7d")])]])])),
   fun _ => .ok (.obj [("itinerary", .arr [])])⟩

/-- A full-run oracle where every external call succeeds. -/
def okWorkerOracle : WorkerOracle :=
  ⟨"uuid-1", "2026-01-01T00:00:00.000Z", okSaveOracle, okGenOracle,
   "2026-01-01T00:00:05.000Z", "2026-01-01T00:00:06.000Z",
   okSaveOracle, okSaveOracle⟩

/-- C1 witness: the concrete valid input `("Paris", 3)` with an
all-successful oracle and the previously issued id list `["uuid-0"]`. -/
theorem C1_start_persists_processing_witness :
    "Paris" ≠ "" ∧ (0 : ℚ) < 3 ∧
    okWorkerOracle.uuid ∉ ["uuid-0"] ∧
    (syncPhase (fun _ => "") okEnv (.str "Paris") (.num 3)
      okWorkerOracle).response = .accepted "uuid-1" ∧
    ("uuid-1" = okWorkerOracle.uuid ∧ "uuid-1" ∉ ["uuid-0"] ∧
    ∃ ev : SaveOutcome,
      (syncPhase (fun _ => "") okEnv (.str "Paris") (.num 3)
          okWorkerOracle).writes =
        [(initData (.str "Paris") (.num 3) okWorkerOracle.createdAt, ev)] ∧
      ev.result = .ok () ∧
      ∃ req : FirestoreRequest, ev.fsReq = some req ∧
        req.url = docUrlOf okWorkerOracle.uuid ∧ req.method = "PATCH" ∧
        req.fields = encodeFields
          (initData (.str "Paris") (.num 3) okWorkerOracle.createdAt)) :=
  ⟨by decide, by norm_num, by decide, rfl,
   C1_start_persists_processing (fun _ => "") okEnv "Paris" 3 okWorkerOracle
     ["uuid-0"] "uuid-1" (by decide) (by norm_num) (by decide) rfl⟩

/-- A full-run oracle whose initial write fails (undecodable key). -/
def initFailWorkerOracle : WorkerOracle :=
  ⟨"uuid-1", "2026-01-01T00:00:00.000Z", failSaveOracle, okGenOracle,
   "2026-01-01T00:00:05.000Z", "2026-01-01T00:00:06.000Z",
   okSaveOracle, okSaveOracle⟩

/-- Whether the detached phase succeeded outright: the generation step
produced an itinerary and the `completed` write returned normally.
Its negation is exactly "some failure occurred in the detached phase". -/
def detachedOk (numRepr : ℚ → String) (env : WorkerEnv) (docUrl : String)
    (o : WorkerOracle) : Bool :=
  match genStep numRepr env.openaiApiKey o.gen with
  | .error _ => false
  | .ok it =>
    match (runSave numRepr (env.gcpClientEmail.getD "") docUrl o.save1
        (completedData it o.completedAt)).result with
    | .ok _ => true
    | .error _ => false

lemma truncMsg_length (m : String) : (truncMsg m).length ≤ 255 := by
  rw [truncMsg]
  by_cases h : String.mk (m.toList.take 255) = ""
  · rw [if_pos h]
    decide
  · rw [if_neg h]
    show (m.toList.take 255).length ≤ 255
    simp

lemma truncMsg_ne_empty (m : String) : truncMsg m ≠ "" := by
  rw [truncMsg]
  by_cases h : String.mk (m.toList.take 255) = ""
  · rw [if_pos h]
    decide
  · rw [if_neg h]
    exact h

/-- C4: whenever anything in the detached phase fails — the backend
call, body parsing, the itinerary shape check, or the `completed` write
itself — the last write the phase attempts is the `failed` document:
`status=failed`, `completedAt` set to the clock reading taken in the
catch block, and `error` a non-empty string of at most 255 characters
(the thrown message truncated, `Unknown error` if empty). -/
theorem C4_failure_attempts_failed_write (numRepr : ℚ → String)
    (env : WorkerEnv) (docUrl : String) (o : WorkerOracle)
    (h : detachedOk numRepr env docUrl o = false) :
    ∃ m : String, ∃ ev : SaveOutcome,
      (detachedPhase numRepr env docUrl o).getLast? =
        some (failedData m o.failedAt, ev) ∧
      (failedData m o.failedAt).lookup "status" = some (.str "failed") ∧
      (failedData m o.failedAt).lookup "completedAt" =
        some (.date o.failedAt) ∧
      (failedData m o.failedAt).lookup "error" = some (.str (truncMsg m)) ∧
      (truncMsg m).length ≤ 255 ∧ truncMsg m ≠ "" := by
  unfold detachedOk at h
  cases hg : genStep numRepr env.openaiApiKey o.gen with
  | error m =>
    refine ⟨m, runSave numRepr (env.gcpClientEmail.getD "") docUrl o.save1
      (failedData m o.failedAt), ?_, rfl, rfl, rfl,
      truncMsg_length m, truncMsg_ne_empty m⟩
    unfold detachedPhase
    rw [hg]
    rfl
  | ok it =>
    rw [hg] at h
    simp only [] at h
    cases hr : (runSave numRepr (env.gcpClientEmail.getD "") docUrl o.save1
        (completedData it o.completedAt)).result with
    | ok u =>
      rw [hr] at h
      simp at h
    | error m =>
      refine ⟨m, runSave numRepr (env.gcpClientEmail.getD "") docUrl o.save2
        (failedData m o.failedAt), ?_, rfl, rfl, rfl,
        truncMsg_length m, truncMsg_ne_empty m⟩
      unfold detachedPhase
      rw [hg]
      simp only [hr]
      rfl

/-- An environment lacking `OPENAI_API_KEY`, so the detached phase
fails at its first check. -/
def noKeyEnv : WorkerEnv := ⟨some "svc@example.com", some "kid", some "pem", none⟩

/-- C4 witness: the concrete detached run with `OPENAI_API_KEY` missing
fails and ends in the `failed` write. -/
theorem C4_failure_attempts_failed_write_witness :
    detachedOk (fun _ => "") noKeyEnv (docUrlOf "uuid-1") okWorkerOracle = false ∧
    (∃ m : String, ∃ ev : SaveOutcome,
      (detachedPhase (fun _ => "") noKeyEnv (docUrlOf "uuid-1")
          okWorkerOracle).getLast? =
        some (failedData m okWorkerOracle.failedAt, ev) ∧
      (failedData m okWorkerOracle.failedAt).lookup "status" =
        some (.str "failed") ∧
      (failedData m okWorkerOracle.failedAt).lookup "completedAt" =
        some (.date okWorkerOracle.failedAt) ∧
      (failedData m okWorkerOracle.failedAt).lookup "error" =
        some (.str (truncMsg m)) ∧
      (truncMsg m).length ≤ 255 ∧ truncMsg m ≠ "") :=
  ⟨rfl, C4_failure_attempts_failed_write (fun _ => "") noKeyEnv
    (docUrlOf "uuid-1") okWorkerOracle rfl⟩

/-- On invalid input the run writes nothing. -/
lemma runWorker_invalid_writes (numRepr : ℚ → String) (env : WorkerEnv)
    (dest dur : JSVal) (o : WorkerOracle)
    (hv : validInput dest dur = false) :
    (runWorker numRepr env dest dur o).writes = [] := by
  simp [runWorker, syncPhase, hv]

/-- With missing credentials the run writes nothing. -/
lemma runWorker_nocreds_writes (numRepr : ℚ → String) (env : WorkerEnv)
    (dest dur : JSVal) (o : WorkerOracle)
    (hv : validInput dest dur = true) (hc : credsOk env = false) :
    (runWorker numRepr env dest dur o).writes = [] := by
  simp [runWorker, syncPhase, hv, hc]

/-- When the initial write fails, the run's writes are exactly that
failed initial write. -/
lemma runWorker_init_error_writes (numRepr : ℚ → String) (env : WorkerEnv)
    (dest dur : JSVal) (o : WorkerOracle) (m : String)
    (hv : validInput dest dur = true) (hc : credsOk env = true)
    (hw : (runSave numRepr (env.gcpClientEmail.getD "") (docUrlOf o.uuid)
      o.save0 (initData dest dur o.createdAt)).result = .error m) :
    (runWorker numRepr env dest dur o).writes =
      [(initData dest dur o.createdAt,
        runSave numRepr (env.gcpClientEmail.getD "") (docUrlOf o.uuid)
          o.save0 (initData dest dur o.createdAt))] := by
  have hs : syncPhase numRepr env dest dur o =
      ⟨.serverError "Failed to initialize job", false,
       [(initData dest dur o.createdAt,
         runSave numRepr (env.gcpClientEmail.getD "") (docUrlOf o.uuid)
           o.save0 (initData dest dur o.createdAt))]⟩ := by
    rw [syncPhase, hv]
    simp only [Bool.not_true, Bool.false_eq_true, if_false]
    rw [if_neg (by simp [hc])]
    simp only [hw]
  rw [runWorker, hs]
  simp

/-- When the initial write succeeds, the run's writes are that write
followed by the detached phase's writes. -/
lemma runWorker_init_ok_writes (numRepr : ℚ → String) (env : WorkerEnv)
    (dest dur : JSVal) (o : WorkerOracle)
    (hv : validInput dest dur = true) (hc : credsOk env = true)
    (hw : (runSave numRepr (env.gcpClientEmail.getD "") (docUrlOf o.uuid)
      o.save0 (initData dest dur o.createdAt)).result = .ok ()) :
    (runWorker numRepr env dest dur o).writes =
      (initData dest dur o.createdAt,
        runSave numRepr (env.gcpClientEmail.getD "") (docUrlOf o.uuid)
          o.save0 (initData dest dur o.createdAt)) ::
      detachedPhase numRepr env (docUrlOf o.uuid) o := by
  have hs : syncPhase numRepr env dest dur o =
      ⟨.accepted o.uuid, true,
       [(initData dest dur o.createdAt,
         runSave numRepr (env.gcpClientEmail.getD "") (docUrlOf o.uuid)
           o.save0 (initData dest dur o.createdAt))]⟩ := by
    rw [syncPhase, hv]
    simp only [Bool.not_true, Bool.false_eq_true, if_false]
    rw [if_neg (by simp [hc])]
    simp only [hw]
  rw [runWorker, hs]
  simp

/-- The initial `processing` document is not terminal. -/
lemma initData_not_terminal (dest dur : JSVal) (createdAt : String) :
    isTerminalData (initData dest dur createdAt) = false := rfl

/-- When the initial write fails, the whole run is the 500 response
with that single write and nothing scheduled. -/
lemma runWorker_init_error_eq (numRepr : ℚ → String) (env : WorkerEnv)
    (dest dur : JSVal) (o : WorkerOracle) (m : String)
    (hv : validInput dest dur = true) (hc : credsOk env = true)
    (hw : (runSave numRepr (env.gcpClientEmail.getD "") (docUrlOf o.uuid)
      o.save0 (initData dest dur o.createdAt)).result = .error m) :
    runWorker numRepr env dest dur o =
      ⟨.serverError "Failed to initialize job", false,
       [(initData dest dur o.createdAt,
         runSave numRepr (env.gcpClientEmail.getD "") (docUrlOf o.uuid)
           o.save0 (initData dest dur o.createdAt))]⟩ := by
  have hs : syncPhase numRepr env dest dur o =
      ⟨.serverError "Failed to initialize job", false,
       [(initData dest dur o.createdAt,
         runSave numRepr (env.gcpClientEmail.getD "") (docUrlOf o.uuid)
           o.save0 (initData dest dur o.createdAt))]⟩ := by
    rw [syncPhase, hv]
    simp only [Bool.not_true, Bool.false_eq_true, if_false]
    rw [if_neg (by simp [hc])]
    simp only [hw]
  rw [runWorker, hs]
  simp

/-- C3: in every run whose first write — the synchronous `processing`
write — fails, the caller gets the 500 initialization-failure response
and never a jobId acknowledgment, the detached phase is not scheduled,
and that failed initial write is the run's only write. -/
theorem C3_init_failure_no_background (numRepr : ℚ → String)
    (env : WorkerEnv) (dest dur : JSVal) (o : WorkerOracle) (m : String)
    (d : List (String × JSVal)) (ev : SaveOutcome)
    (h0 : (runWorker numRepr env dest dur o).writes.get? 0 = some (d, ev))
    (hw : ev.result = .error m) :
    (runWorker numRepr env dest dur o).response =
      .serverError "Failed to initialize job" ∧
    (runWorker numRepr env dest dur o).scheduled = false ∧
    d = initData dest dur o.createdAt ∧
    (runWorker numRepr env dest dur o).writes = [(d, ev)] ∧
    ∀ jid : String,
      (runWorker numRepr env dest dur o).response ≠ .accepted jid := by
  by_cases hv : validInput dest dur
  · by_cases hc : credsOk env
    · cases hr : (runSave numRepr (env.gcpClientEmail.getD "") (docUrlOf o.uuid)
          o.save0 (initData dest dur o.createdAt)).result with
      | error m' =>
        have heq := runWorker_init_error_eq numRepr env dest dur o m' hv hc hr
        rw [heq] at h0 ⊢
        simp at h0
        obtain ⟨hd, hev⟩ := h0
        refine ⟨rfl, rfl, hd.symm, ?_, ?_⟩
        · rw [hev, hd]
        · intro jid
          simp
      | ok u =>
        cases u
        rw [runWorker_init_ok_writes numRepr env dest dur o hv hc hr] at h0
        simp at h0
        obtain ⟨-, hev⟩ := h0
        rw [← hev] at hw
        rw [hr] at hw
        simp at hw
    · rw [runWorker_nocreds_writes numRepr env dest dur o hv
        (by simpa using hc)] at h0
      simp at h0
  · rw [runWorker_invalid_writes numRepr env dest dur o
      (by simpa using hv)] at h0
    simp at h0

/-- C3 witness: the concrete run where the initial write throws. -/
theorem C3_init_failure_no_background_witness :
    (runWorker (fun _ => "") okEnv (.str "Paris") (.num 3)
        initFailWorkerOracle).writes.get? 0 =
      some (initData (.str "Paris") (.num 3) "2026-01-01T00:00:00.000Z",
        runSave (fun _ => "") "svc@example.com" (docUrlOf "uuid-1")
          failSaveOracle
          (initData (.str "Paris") (.num 3) "2026-01-01T00:00:00.000Z")) ∧
    (runSave (fun _ => "") "svc@example.com" (docUrlOf "uuid-1")
        failSaveOracle
        (initData (.str "Paris") (.num 3) "2026-01-01T00:00:00.000Z")).result
      = .error "Failed to decode private key: bad key" ∧
    ((runWorker (fun _ => "") okEnv (.str "Paris") (.num 3)
        initFailWorkerOracle).response =
      .serverError "Failed to initialize job" ∧
    (runWorker (fun _ => "") okEnv (.str "Paris") (.num 3)
        initFailWorkerOracle).scheduled = false ∧
    initData (.str "Paris") (.num 3) "2026-01-01T00:00:00.000Z" =
      initData (.str "Paris") (.num 3) initFailWorkerOracle.createdAt ∧
    (runWorker (fun _ => "") okEnv (.str "Paris") (.num 3)
        initFailWorkerOracle).writes =
      [(initData (.str "Paris") (.num 3) "2026-01-01T00:00:00.000Z",
        runSave (fun _ => "") "svc@example.com" (docUrlOf "uuid-1")
          failSaveOracle
          (initData (.str "Paris") (.num 3) "2026-01-01T00:00:00.000Z"))] ∧
    ∀ jid : String,
      (runWorker (fun _ => "") okEnv (.str "Paris") (.num 3)
        initFailWorkerOracle).response ≠ .accepted jid) :=
  ⟨rfl, rfl,
   C3_init_failure_no_background (fun _ => "") okEnv (.str "Paris") (.num 3)
     initFailWorkerOracle "Failed to decode private key: bad key"
     (initData (.str "Paris") (.num 3) "2026-01-01T00:00:00.000Z")
     (runSave (fun _ => "") "svc@example.com" (docUrlOf "uuid-1")
       failSaveOracle
       (initData (.str "Paris") (.num 3) "2026-01-01T00:00:00.000Z"))
     rfl rfl⟩

/-- In the detached phase, a write that returned normally — and any
write whose payload carries `status = failed`, whether it succeeded or
not — is the last write of the phase. -/
lemma detachedPhase_event_is_last (numRepr : ℚ → String) (env : WorkerEnv)
    (docUrl : String) (o : WorkerOracle) (i : Nat)
    (d : List (String × JSVal)) (ev : SaveOutcome)
    (hi : (detachedPhase numRepr env docUrl o).get? i = some (d, ev))
    (h : ev.result = .ok () ∨ d.lookup "status" = some (.str "failed")) :
    (detachedPhase numRepr env docUrl o).length = i + 1 := by
  unfold detachedPhase at hi ⊢
  cases hg : genStep numRepr env.openaiApiKey o.gen with
  | error m =>
    rw [hg] at hi
    cases i with
    | zero => rfl
    | succ n => simp at hi
  | ok it =>
    rw [hg] at hi
    cases hr : (runSave numRepr (env.gcpClientEmail.getD "") docUrl o.save1
        (completedData it o.completedAt)).result with
    | ok u =>
      cases i with
      | zero => simp [hr]
      | succ n => simp [hr] at hi
    | error m =>
      cases i with
      | zero =>
        simp only [hr] at hi
        simp at hi
        obtain ⟨hd, hev⟩ := hi
        rcases h with hok | hst
        · rw [← hev] at hok
          rw [hr] at hok
          simp at hok
        · have hl : (completedData it o.completedAt).lookup "status"
              = some (JSVal.str "completed") := rfl
          rw [← hd, hl] at hst
          injection hst with h1
          injection h1 with h2
          exact absurd h2 (by decide)
      | succ n =>
        cases n with
        | zero => simp [hr]
        | succ k => simp [hr] at hi

/-- C5: once a run has attempted a terminal write, nothing follows it:
a write that returned normally with a terminal status (`completed` or
`failed`) is the run's last write, and any `failed`-status write —
whether it succeeded or itself failed — is likewise the run's last
write, so a failing `failed` write is only logged with no further
write attempted. -/
theorem C5_no_write_after_terminal (numRepr : ℚ → String) (env : WorkerEnv)
    (dest dur : JSVal) (o : WorkerOracle) (i : Nat)
    (d : List (String × JSVal)) (ev : SaveOutcome)
    (hi : (runWorker numRepr env dest dur o).writes.get? i = some (d, ev))
    (h : (ev.result = .ok () ∧ isTerminalData d = true) ∨
      d.lookup "status" = some (.str "failed")) :
    (runWorker numRepr env dest dur o).writes.length = i + 1 := by
  by_cases hv : validInput dest dur
  · by_cases hc : credsOk env
    · cases hw : (runSave numRepr (env.gcpClientEmail.getD "") (docUrlOf o.uuid)
          o.save0 (initData dest dur o.createdAt)).result with
      | error m =>
        rw [runWorker_init_error_writes numRepr env dest dur o m hv hc hw] at hi ⊢
        cases i with
        | zero =>
          simp at hi
          obtain ⟨hd, hev⟩ := hi
          rcases h with ⟨hok, -⟩ | hst
          · rw [← hev] at hok
            rw [hw] at hok
            simp at hok
          · have hl : (initData dest dur o.createdAt).lookup "status"
                = some (JSVal.str "processing") := rfl
            rw [← hd, hl] at hst
            injection hst with h1
            injection h1 with h2
            exact absurd h2 (by decide)
        | succ n => simp at hi
      | ok u =>
        cases u
        rw [runWorker_init_ok_writes numRepr env dest dur o hv hc hw] at hi ⊢
        cases i with
        | zero =>
          simp at hi
          obtain ⟨hd, -⟩ := hi
          rcases h with ⟨-, hterm⟩ | hst
          · rw [← hd, initData_not_terminal] at hterm
            simp at hterm
          · have hl : (initData dest dur o.createdAt).lookup "status"
                = some (JSVal.str "processing") := rfl
            rw [← hd, hl] at hst
            injection hst with h1
            injection h1 with h2
            exact absurd h2 (by decide)
        | succ n =>
          simp only [List.get?_cons_succ] at hi
          rw [List.length_cons,
            detachedPhase_event_is_last numRepr env (docUrlOf o.uuid) o n d ev hi
              (h.elim (fun hp => Or.inl hp.1) Or.inr)]
    · rw [runWorker_nocreds_writes numRepr env dest dur o hv
        (by simpa using hc)] at hi
      simp at hi
  · rw [runWorker_invalid_writes numRepr env dest dur o
      (by simpa using hv)] at hi
    simp at hi

/-- A full-run oracle where the initial write succeeds, generation
succeeds, but both the `completed` write and the subsequent `failed`
write throw (undecodable key). -/
def termFailWorkerOracle : WorkerOracle :=
  ⟨"uuid-1", "2026-01-01T00:00:00.000Z", okSaveOracle, okGenOracle,
   "2026-01-01T00:00:05.000Z", "2026-01-01T00:00:06.000Z",
   failSaveOracle, failSaveOracle⟩

/-- C5 witness: in the all-successful concrete run the successful
terminal (`completed`) write sits at index 1 and the run has exactly
two writes; and in the concrete run whose `completed` and `failed`
writes both throw, the failing `failed`-status write sits at index 2
and is the run's last write — nothing follows it. -/
theorem C5_no_write_after_terminal_witness :
    ((runWorker (fun _ => "") okEnv (.str "Paris") (.num 3)
        okWorkerOracle).writes.get? 1 =
      some (completedData [] "2026-01-01T00:00:05.000Z",
        runSave (fun _ => "") "svc@example.com" (docUrlOf "uuid-1")
          okSaveOracle (completedData [] "2026-01-01T00:00:05.000Z")) ∧
    (runSave (fun _ => "") "svc@example.com" (docUrlOf "uuid-1")
      okSaveOracle (completedData [] "2026-01-01T00:00:05.000Z")).result
      = .ok () ∧
    isTerminalData (completedData [] "2026-01-01T00:00:05.000Z") = true ∧
    (runWorker (fun _ => "") okEnv (.str "Paris") (.num 3)
      okWorkerOracle).writes.length = 1 + 1) ∧
    ((runWorker (fun _ => "") okEnv (.str "Paris") (.num 3)
        termFailWorkerOracle).writes.get? 2 =
      some (failedData "Failed to decode private key: bad key"
          "2026-01-01T00:00:06.000Z",
        runSave (fun _ => "") "svc@example.com" (docUrlOf "uuid-1")
          failSaveOracle
          (failedData "Failed to decode private key: bad key"
            "2026-01-01T00:00:06.000Z")) ∧
    (failedData "Failed to decode private key: bad key"
        "2026-01-01T00:00:06.000Z").lookup "status" =
      some (JSVal.str "failed") ∧
    (runWorker (fun _ => "") okEnv (.str "Paris") (.num 3)
      termFailWorkerOracle).writes.length = 2 + 1) :=
  ⟨⟨rfl, rfl, rfl,
    C5_no_write_after_terminal (fun _ => "") okEnv (.str "Paris") (.num 3)
      okWorkerOracle 1 (completedData [] "2026-01-01T00:00:05.000Z")
      (runSave (fun _ => "") "svc@example.com" (docUrlOf "uuid-1")
        okSaveOracle (completedData [] "2026-01-01T00:00:05.000Z"))
      rfl (Or.inl ⟨rfl, rfl⟩)⟩,
   ⟨rfl, rfl,
    C5_no_write_after_terminal (fun _ => "") okEnv (.str "Paris") (.num 3)
      termFailWorkerOracle 2
      (failedData "Failed to decode private key: bad key"
        "2026-01-01T00:00:06.000Z")
      (runSave (fun _ => "") "svc@example.com" (docUrlOf "uuid-1")
        failSaveOracle
        (failedData "Failed to decode private key: bad key"
          "2026-01-01T00:00:06.000Z"))
      rfl (Or.inr rfl)⟩⟩
